import Mathlib

/-!
Shallow embedding of the RTOS demo source (src/main.c): the EDF-style
priority updater, the two-task EDF scheduler loop, the fault-tolerant
primary/backup pair, and the watchdog supervisor.  Machine integers
(`TickType_t`, `uint32_t`) are modelled as `Nat`; every subtraction in the
source is guarded by a comparison, so no unsigned wrap-around occurs in the
modelled regime.  `pdMS_TO_TICKS` is the identity (the demo runs at a
1 ms tick: timestamps printed by `vPrintTimestamped` are tick counts
labelled "ms").  Blocking delays are modelled by explicit time arithmetic:
`vTaskDelayUntil` wakes at `max entry (prev + period)` and advances the
stored wake reference by `period`; `vTaskDelay d` adds `d` to the current
time.  Randomness (`rand() % 10 == 0`) is abstracted as an explicit
`overrun : Bool` parameter, as the spec directs for the fault-injection
policy.
-/

namespace RTOS

/-- Identity of the three tracked tasks `task1Handle`, `task2Handle`,
`task3Handle` of the basic EDF demo. -/
inductive TaskId
  | t1
  | t2
  | t3
deriving DecidableEq, BEq

/-- Initial value of the global `deadline1` (ticks). -/
def deadline1 : Nat := 500

/-- Initial value of the global `deadline2` (ticks). -/
def deadline2 : Nat := 1000

/-- Initial value of the global `deadline3` (ticks). -/
def deadline3 : Nat := 1500

/-- The clamped remaining-time computation of `updatePriorities`:
`(deadline > currentTick) ? deadline - currentTick : 0`. -/
def remainingTime (deadline currentTick : Nat) : Nat :=
  if deadline > currentTick then deadline - currentTick else 0

/-- Embedding of `updatePriorities` (src/main.c lines 30-52), parametrised by
the three global deadlines and the current tick.  It returns, in program
order, the `vTaskPrioritySet` commands issued: one `(task, priority)` pair
per call. -/
def updatePriorities (d1 d2 d3 currentTick : Nat) : List (TaskId × Nat) :=
  let remaining1 := remainingTime d1 currentTick
  let remaining2 := remainingTime d2 currentTick
  let remaining3 := remainingTime d3 currentTick
  if remaining1 ≤ remaining2 ∧ remaining1 ≤ remaining3 then
    [(TaskId.t1, 3), (TaskId.t2, 2), (TaskId.t3, 1)]
  else if remaining2 ≤ remaining1 ∧ remaining2 ≤ remaining3 then
    [(TaskId.t1, 1), (TaskId.t2, 3), (TaskId.t3, 2)]
  else
    [(TaskId.t1, 1), (TaskId.t2, 2), (TaskId.t3, 3)]

/-- Priority a given task receives from an assignment list (0 if absent;
every `updatePriorities` result mentions each task exactly once). -/
def prioOf (assigns : List (TaskId × Nat)) (t : TaskId) : Nat :=
  match assigns.find? (fun p => p.1 == t) with
  | some p => p.2
  | none => 0

/-- Mutable state visible to `updatePriorities`: the tick counter, the three
global deadlines, and the current priority of each task. -/
structure SchedWorld where
  tick : Nat
  d1 : Nat
  d2 : Nat
  d3 : Nat
  p1 : Nat
  p2 : Nat
  p3 : Nat
deriving DecidableEq

/-- Effect of one `updatePriorities()` call on the world: the three
`vTaskPrioritySet` writes are applied; the deadlines and the tick are read
but not written. -/
def applyUpdatePriorities (w : SchedWorld) : SchedWorld :=
  let l := updatePriorities w.d1 w.d2 w.d3 w.tick
  { w with
    p1 := prioOf l TaskId.t1
    p2 := prioOf l TaskId.t2
    p3 := prioOf l TaskId.t3 }

/-- Record of the two-task EDF demo (`EDFTask` struct): the handle is
represented by the task's name, which is unique in the demo. -/
structure EDFTask where
  name : String
  period : Nat
  next_deadline : Nat
deriving DecidableEq

/-- One bubble pass of `vEDF_Scheduler` over the two-element array
`edfTasks`: swap when the second deadline is strictly smaller. -/
def edfSchedulerReorder (ts : EDFTask × EDFTask) : EDFTask × EDFTask :=
  if ts.2.next_deadline < ts.1.next_deadline then (ts.2, ts.1) else ts

/-- The `vTaskPrioritySet` commands of one `vEDF_Scheduler` iteration:
after the reorder, slot `i` receives priority `3 - i`. -/
def edfSchedulerAssign (ts : EDFTask × EDFTask) : List (String × Nat) :=
  let s := edfSchedulerReorder ts
  [(s.1.name, 3), (s.2.name, 2)]

/-- Milliseconds-to-ticks conversion; the demo runs at a 1 ms tick, so it
is the identity. -/
def pdMS_TO_TICKS (ms : Nat) : Nat := ms

/-- Configuration of a fault-tolerant job (`FaultTolerantTask`): `period`
of the primary and the relative `deadline` the backup waits before
activation. -/
structure FTConfig where
  period : Nat
  deadline : Nat
deriving DecidableEq

/-- JobA configuration: period 500 ms, deadline 800 ms. -/
def jobA : FTConfig := ⟨500, 800⟩

/-- JobB configuration: period 700 ms, deadline 1000 ms. -/
def jobB : FTConfig := ⟨700, 1000⟩

/-- Mutable fields of a `FaultTolerantTask` record shared between the
primary and backup tasks. -/
structure FTState where
  primarySuccess : Bool
  successCount : Nat
  backupActivations : Nat
  deadlineMisses : Nat
deriving DecidableEq

/-- Result of one `vFT_Primary` loop iteration: the updated shared state,
the updated `xNextWake` reference, the time `vTaskDelayUntil` returned
(period release) and the completion time of the workload. -/
structure PrimResult where
  state : FTState
  nextWake : Nat
  releaseTime : Nat
  completionTime : Nat
deriving DecidableEq

/-- One iteration of `vFT_Primary` (src/main.c lines 280-320).  `entry` is
the time the loop body is entered, `prevWake` the current value of
`xNextWake`, `overrun` the outcome of `(rand() % 10) == 0`.  In program
order: `primarySuccess := pdFALSE`; `vTaskDelayUntil(&xNextWake, period)`;
the workload (`vTaskDelay` of `deadline*2/1` on overrun, else `period/2`,
the latter followed by `primarySuccess := pdTRUE` and `successCount++`);
then the deadline check `now > (xNextWake - period + deadline)`, where the
post-increment `xNextWake` equals `prevWake + period`, so the threshold is
`prevWake + deadline`. -/
def vFT_Primary_cycle (cfg : FTConfig) (entry prevWake : Nat) (overrun : Bool)
    (s : FTState) : PrimResult :=
  let s0 : FTState := { s with primarySuccess := false }
  let wakeTarget := prevWake + cfg.period
  let release := max entry wakeTarget
  let exec := if overrun then pdMS_TO_TICKS (cfg.deadline * 2 / 1)
              else pdMS_TO_TICKS (cfg.period / 2)
  let completion := release + exec
  let s1 : FTState :=
    if overrun then { s0 with primarySuccess := false }
    else { s0 with primarySuccess := true, successCount := s0.successCount + 1 }
  let s2 : FTState :=
    if completion > wakeTarget - cfg.period + cfg.deadline then
      { s1 with deadlineMisses := s1.deadlineMisses + 1 }
    else s1
  ⟨s2, wakeTarget, release, completion⟩

/-- Observable events of one `vFT_Primary` iteration, in program order. -/
inductive PrimEvent
  | outcomeReset
  | released
  | outcomeWrite (b : Bool)
  | successIncrement
  | missIncrement
deriving DecidableEq

/-- Timestamped event trace of one `vFT_Primary` iteration: the
`primarySuccess := pdFALSE` reset at loop entry, the return of
`vTaskDelayUntil`, the outcome write after the workload (with the
`successCount` increment on the nominal path), and the `deadlineMisses`
increment when the check fires. -/
def vFT_Primary_trace (cfg : FTConfig) (entry prevWake : Nat)
    (overrun : Bool) : List (Nat × PrimEvent) :=
  let wakeTarget := prevWake + cfg.period
  let release := max entry wakeTarget
  let exec := if overrun then pdMS_TO_TICKS (cfg.deadline * 2 / 1)
              else pdMS_TO_TICKS (cfg.period / 2)
  let completion := release + exec
  [(entry, PrimEvent.outcomeReset), (release, PrimEvent.released)] ++
  (if overrun then [(completion, PrimEvent.outcomeWrite false)]
   else [(completion, PrimEvent.outcomeWrite true),
         (completion, PrimEvent.successIncrement)]) ++
  (if completion > wakeTarget - cfg.period + cfg.deadline then
     [(completion, PrimEvent.missIncrement)]
   else [])

/-- Result of one `vFT_Backup` loop iteration: the updated shared state,
whether the substitute workload ran, and the time the substitute workload
consumed (`period/4` when activated, 0 otherwise). -/
structure BackupResult where
  state : FTState
  activated : Bool
  substituteTime : Nat
deriving DecidableEq

/-- One iteration of `vFT_Backup` (src/main.c lines 325-341), after its
`vTaskDelay(pdMS_TO_TICKS(deadline))`: read `primarySuccess`; if false,
increment `backupActivations` and run the substitute workload
(`vTaskDelay(period/4)`); if true, only log.  No other field is touched. -/
def vFT_Backup_cycle (cfg : FTConfig) (s : FTState) : BackupResult :=
  if !s.primarySuccess then
    ⟨{ s with backupActivations := s.backupActivations + 1 }, true,
      pdMS_TO_TICKS (cfg.period / 4)⟩
  else
    ⟨s, false, 0⟩

/-- Check times of `vFT_Backup` (time of each read of `primarySuccess`),
starting at time 0: the task first sleeps `deadline`, and between check
`k` and check `k+1` it sleeps the substitute time of cycle `k` (period/4
when activated, per `acts k`) plus another `deadline`. -/
def backupCheckTimes (cfg : FTConfig) (acts : Nat → Bool) : Nat → Nat
  | 0 => pdMS_TO_TICKS cfg.deadline
  | k + 1 => backupCheckTimes cfg acts k +
      (if acts k then pdMS_TO_TICKS (cfg.period / 4) else 0) +
      pdMS_TO_TICKS cfg.deadline

/-- JobA backup check times in the idle case (every primary run succeeds,
so the backup never activates). -/
def jobACheckTime (k : Nat) : Nat := backupCheckTimes jobA (fun _ => false) k

/-- Start of JobA primary period instance `n` (task started at time 0, so
`xNextWake` after the instance-`n` release is `(n+1) * period`). -/
def jobAPeriodStart (n : Nat) : Nat := jobA.period * (n + 1)

/-- Number of idle-case backup checks that fall inside JobA primary period
instance `n`, i.e. in `[jobAPeriodStart n, jobAPeriodStart (n+1))`.  The
search bound `n + 2` covers every check index: `jobACheckTime_lt_bound`
proves any check inside the window has index below the bound. -/
def jobABackupChecksInPeriod (n : Nat) : Nat :=
  ((List.range (n + 2)).filter (fun k =>
    decide (jobAPeriodStart n ≤ jobACheckTime k ∧
            jobACheckTime k < jobAPeriodStart (n + 1)))).length

/-- Heartbeat bit of Worker1: `1UL << 0`. -/
def worker1Bit : Nat := 1 <<< 0

/-- Heartbeat bit of Worker2: `1UL << 1`. -/
def worker2Bit : Nat := 1 <<< 1

/-- Supervisor-owned miss counters `ulMissed1`, `ulMissed2`. -/
structure SupState where
  missed1 : Nat
  missed2 : Nat
deriving DecidableEq

/-- Counter-update phase of one `vSupervisorTask` iteration (src/main.c
lines 429-448).  `received = some bits` models `xTaskNotifyWait` returning
`pdTRUE` with notification value `bits`; `received = none` models the
100 ms window elapsing with no notification. -/
def updateMiss (received : Option Nat) (s : SupState) : SupState :=
  match received with
  | some bits =>
      { missed1 := if bits &&& worker1Bit ≠ 0 then 0 else s.missed1 + 1
        missed2 := if bits &&& worker2Bit ≠ 0 then 0 else s.missed2 + 1 }
  | none => { missed1 := s.missed1 + 1, missed2 := s.missed2 + 1 }

/-- Restart actions of one iteration: whether each worker was destroyed
and recreated, and the heartbeat bits passed to the `xTaskCreate` calls of
the recreations, in program order. -/
structure RestartInfo where
  restarted1 : Bool
  restarted2 : Bool
  createdBits : List Nat
deriving DecidableEq

/-- Restart phase of one `vSupervisorTask` iteration (src/main.c lines
451-467): any counter at or above 2 triggers `vTaskDelete` plus
`xTaskCreate(vWorkerTask, ..., bit, ...)` with the worker's original bit,
then the counter is reset to 0. -/
def restartPhase (s : SupState) : SupState × RestartInfo :=
  let m1 := if s.missed1 ≥ 2 then 0 else s.missed1
  let r1 := s.missed1 ≥ 2
  let m2 := if s.missed2 ≥ 2 then 0 else s.missed2
  let r2 := s.missed2 ≥ 2
  (⟨m1, m2⟩,
   ⟨decide r1, decide r2,
    (if s.missed1 ≥ 2 then [worker1Bit] else []) ++
    (if s.missed2 ≥ 2 then [worker2Bit] else [])⟩)

/-- One full `vSupervisorTask` collection-window iteration. -/
def supervisorStep (received : Option Nat) (s : SupState) :
    SupState × RestartInfo :=
  restartPhase (updateMiss received s)

/-- A run of the supervisor over a list of window outcomes, returning the
final counters and the restart record of every iteration. -/
def supervisorRun (inputs : List (Option Nat)) (s : SupState) :
    SupState × List RestartInfo :=
  match inputs with
  | [] => (s, [])
  | i :: rest =>
      let step := supervisorStep i s
      let run := supervisorRun rest step.1
      (run.1, step.2 :: run.2)

/-- A collection window in which a given worker's heartbeat bit is absent:
either the window timed out with no notification, or the received bitmask
lacks the bit. -/
def bitAbsent (bit : Nat) : Option Nat → Bool
  | none => true
  | some bits => bits &&& bit == 0

/-- Helper: `remainingTime` is truncated subtraction on `Nat`. -/
theorem remainingTime_eq_sub (d now : Nat) : remainingTime d now = d - now := by
  unfold remainingTime
  split <;> omega

/-- C10: every `updatePriorities` call issues exactly one `vTaskPrioritySet`
write per task handle (in the fixed order task1, task2, task3), the three
written priority levels are a permutation of {1, 2, 3}, and exactly one
task receives the top level 3, whatever the deadlines and the tick. -/
theorem C10_priority_writes_form_permutation (d1 d2 d3 now : Nat) :
    (updatePriorities d1 d2 d3 now).map Prod.fst =
      [TaskId.t1, TaskId.t2, TaskId.t3] ∧
    ((updatePriorities d1 d2 d3 now).map Prod.snd).Perm [1, 2, 3] ∧
    ((updatePriorities d1 d2 d3 now).filter (fun p => p.2 == 3)).length = 1 := by
  unfold updatePriorities
  dsimp only
  split
  · decide
  · split <;> decide

/-- C8: the remaining time computed by `updatePriorities` equals
max(0, deadline − now) as integers — clamped at zero, never negative or
wrapped — and when `now` is at or past the deadline the task's remaining
time is 0, which is ≤ every other remaining time (the overdue task ranks
as most urgent). -/
theorem C8_remaining_time_clamped (d now : Nat) :
    ((remainingTime d now : Int) = max 0 ((d : Int) - (now : Int))) ∧
    (d ≤ now → remainingTime d now = 0 ∧
      ∀ e : Nat, remainingTime d now ≤ remainingTime e now) := by
  refine ⟨?_, fun h => ⟨?_, fun e => ?_⟩⟩ <;>
    simp only [remainingTime_eq_sub] <;> omega

/-- Witness for C8 at deadline 5, tick 10 (overdue), other deadline 7. -/
theorem C8_remaining_time_clamped_witness :
    (remainingTime 5 10 : Int) = max 0 ((5 : Int) - (10 : Int)) ∧
    remainingTime 5 10 = 0 ∧ remainingTime 5 10 ≤ remainingTime 7 10 :=
  ⟨(C8_remaining_time_clamped 5 10).1,
   ((C8_remaining_time_clamped 5 10).2 (by decide)).1,
   ((C8_remaining_time_clamped 5 10).2 (by decide)).2 7⟩

/-- C1 fails as stated: at deadlines (100, 300, 200) and tick 0 the
remaining times are pairwise distinct with ordering
remaining1 < remaining3 < remaining2, so the claim requires task3 (the
next-smallest) to receive priority 2 and task2 (the largest) priority 1;
`updatePriorities` takes its first branch and assigns task2 ↦ 2 and
task3 ↦ 1 instead. -/
theorem C1_counterexample :
    remainingTime 100 0 < remainingTime 200 0 ∧
    remainingTime 200 0 < remainingTime 300 0 ∧
    updatePriorities 100 300 200 0 =
      [(TaskId.t1, 3), (TaskId.t2, 2), (TaskId.t3, 1)] ∧
    ¬ (prioOf (updatePriorities 100 300 200 0) TaskId.t3 = 2 ∧
       prioOf (updatePriorities 100 300 200 0) TaskId.t2 = 1) := by decide

/-- C1 amended: when the three remaining times are pairwise distinct,
`updatePriorities` gives the task with the strictly smallest remaining time
priority 3, but the other two priorities follow the fixed per-branch
patterns (2, 1 by index), so the full descending-matches-ascending property
holds only in three of the six orderings; the two-task `vEDF_Scheduler`
loop does assign 3 to the earlier deadline and 2 to the later one. -/
theorem C1_amended_min_remaining_gets_top (d1 d2 d3 now : Nat)
    (a b : EDFTask) :
    (remainingTime d1 now < remainingTime d2 now →
     remainingTime d1 now < remainingTime d3 now →
     prioOf (updatePriorities d1 d2 d3 now) TaskId.t1 = 3) ∧
    (remainingTime d2 now < remainingTime d1 now →
     remainingTime d2 now < remainingTime d3 now →
     prioOf (updatePriorities d1 d2 d3 now) TaskId.t2 = 3) ∧
    (remainingTime d3 now < remainingTime d1 now →
     remainingTime d3 now < remainingTime d2 now →
     prioOf (updatePriorities d1 d2 d3 now) TaskId.t3 = 3) ∧
    (a.next_deadline < b.next_deadline →
     edfSchedulerAssign (a, b) = [(a.name, 3), (b.name, 2)]) ∧
    (b.next_deadline < a.next_deadline →
     edfSchedulerAssign (a, b) = [(b.name, 3), (a.name, 2)]) := by
  refine ⟨?_, ?_, ?_, ?_, ?_⟩
  · intro h1 h2
    unfold updatePriorities
    dsimp only
    split
    · decide
    · split <;> omega
  · intro h1 h2
    unfold updatePriorities
    dsimp only
    split
    · omega
    · split
      · decide
      · omega
  · intro h1 h2
    unfold updatePriorities
    dsimp only
    split
    · omega
    · split
      · omega
      · decide
  · intro h
    unfold edfSchedulerAssign edfSchedulerReorder
    dsimp only
    split
    · omega
    · rfl
  · intro h
    unfold edfSchedulerAssign edfSchedulerReorder
    dsimp only
    split
    · rfl
    · omega

/-- Witness for the amended C1 at deadlines (100, 300, 200), tick 0, and
two EDF tasks with deadlines 400 < 900. -/
theorem C1_amended_witness :
    prioOf (updatePriorities 100 300 200 0) TaskId.t1 = 3 ∧
    edfSchedulerAssign (⟨"EDF_TaskA", 300, 400⟩, ⟨"EDF_TaskB", 500, 900⟩) =
      [("EDF_TaskA", 3), ("EDF_TaskB", 2)] :=
  ⟨(C1_amended_min_remaining_gets_top 100 300 200 0
      ⟨"EDF_TaskA", 300, 400⟩ ⟨"EDF_TaskB", 500, 900⟩).1 (by decide) (by decide),
   (C1_amended_min_remaining_gets_top 100 300 200 0
      ⟨"EDF_TaskA", 300, 400⟩ ⟨"EDF_TaskB", 500, 900⟩).2.2.2.1 (by decide)⟩

/-- C9 fails as stated: at deadlines (5, 5, 2) and tick 0 tasks 1 and 2 are
tied (remaining 5 each, not minimal since task3 has 2); the code falls to
its last branch and assigns task1 ↦ 1, task2 ↦ 2, so the later-registered
tied task receives the higher priority. -/
theorem C9_counterexample :
    remainingTime 5 0 = remainingTime 5 0 ∧
    remainingTime 2 0 < remainingTime 5 0 ∧
    prioOf (updatePriorities 5 5 2 0) TaskId.t1 = 1 ∧
    prioOf (updatePriorities 5 5 2 0) TaskId.t2 = 2 ∧
    ¬ prioOf (updatePriorities 5 5 2 0) TaskId.t2 <
        prioOf (updatePriorities 5 5 2 0) TaskId.t1 := by decide

/-- C9 amended: `updatePriorities` is idempotent for a fixed tick and
deterministic (the assignment depends only on the deadlines and the tick,
not on the previous priorities); ties are broken toward the
earlier-registered task only when the tied value is the minimum remaining
time — for a non-minimal tie the later-registered task can receive the
higher priority (see the counterexample). -/
theorem C9_amended_idempotent_min_tie (w v : SchedWorld) (d1 d2 d3 now : Nat) :
    (applyUpdatePriorities (applyUpdatePriorities w) = applyUpdatePriorities w) ∧
    (w.tick = v.tick → w.d1 = v.d1 → w.d2 = v.d2 → w.d3 = v.d3 →
      (applyUpdatePriorities w).p1 = (applyUpdatePriorities v).p1 ∧
      (applyUpdatePriorities w).p2 = (applyUpdatePriorities v).p2 ∧
      (applyUpdatePriorities w).p3 = (applyUpdatePriorities v).p3) ∧
    (remainingTime d1 now = remainingTime d2 now →
     remainingTime d1 now ≤ remainingTime d3 now →
     prioOf (updatePriorities d1 d2 d3 now) TaskId.t2 <
       prioOf (updatePriorities d1 d2 d3 now) TaskId.t1) ∧
    (remainingTime d1 now = remainingTime d3 now →
     remainingTime d1 now ≤ remainingTime d2 now →
     prioOf (updatePriorities d1 d2 d3 now) TaskId.t3 <
       prioOf (updatePriorities d1 d2 d3 now) TaskId.t1) ∧
    (remainingTime d2 now = remainingTime d3 now →
     remainingTime d2 now ≤ remainingTime d1 now →
     prioOf (updatePriorities d1 d2 d3 now) TaskId.t3 <
       prioOf (updatePriorities d1 d2 d3 now) TaskId.t2) := by
  refine ⟨?_, ?_, ?_, ?_, ?_⟩
  · simp [applyUpdatePriorities]
  · intro h1 h2 h3 h4
    simp only [applyUpdatePriorities]
    rw [h1, h2, h3, h4]
    exact ⟨rfl, rfl, rfl⟩
  · intro h1 h2
    unfold updatePriorities
    dsimp only
    split
    · decide
    · split <;> omega
  · intro h1 h2
    unfold updatePriorities
    dsimp only
    split
    · decide
    · split <;> omega
  · intro h1 h2
    unfold updatePriorities
    dsimp only
    split
    · decide
    · split
      · decide
      · omega

/-- Witness for the amended C9: idempotence at a concrete world, and the
minimal-tie case remaining (5, 5, 9) at tick 0 where task1 beats task2. -/
theorem C9_amended_witness :
    applyUpdatePriorities (applyUpdatePriorities ⟨0, 500, 1000, 1500, 1, 1, 1⟩) =
      applyUpdatePriorities ⟨0, 500, 1000, 1500, 1, 1, 1⟩ ∧
    prioOf (updatePriorities 5 5 9 0) TaskId.t2 <
      prioOf (updatePriorities 5 5 9 0) TaskId.t1 :=
  ⟨(C9_amended_idempotent_min_tie ⟨0, 500, 1000, 1500, 1, 1, 1⟩
      ⟨0, 500, 1000, 1500, 2, 2, 2⟩ 5 5 9 0).1,
   (C9_amended_idempotent_min_tie ⟨0, 500, 1000, 1500, 1, 1, 1⟩
      ⟨0, 500, 1000, 1500, 2, 2, 2⟩ 5 5 9 0).2.2.1 (by decide) (by decide)⟩

/-- C2 fails as stated: for JobB (period 700, deadline 1000) a nominal
success cycle released at 700 completes at 1050, strictly before
period_start + deadline_offset = 1700, yet the code increments
`deadlineMisses` because its threshold is `xNextWake - period + deadline`
= 1000, one full period earlier than the claim's threshold. -/
theorem C2_counterexample :
    (vFT_Primary_cycle jobB 0 0 false ⟨true, 0, 0, 0⟩).state.deadlineMisses = 1 ∧
    (vFT_Primary_cycle jobB 0 0 false ⟨true, 0, 0, 0⟩).releaseTime = 700 ∧
    (vFT_Primary_cycle jobB 0 0 false ⟨true, 0, 0, 0⟩).completionTime = 1050 ∧
    (vFT_Primary_cycle jobB 0 0 false ⟨true, 0, 0, 0⟩).completionTime <
      (vFT_Primary_cycle jobB 0 0 false ⟨true, 0, 0, 0⟩).releaseTime +
        jobB.deadline := by decide

/-- C2 amended: `deadlineMisses` is incremented by exactly 1, regardless of
success or failure, if and only if the completion time is strictly greater
than `prevWake + deadline_offset`, where `prevWake` is the release of the
previous period (`xNextWake - period`); a completion exactly at that
threshold does not count as a miss. -/
theorem C2_amended_miss_threshold (cfg : FTConfig) (entry prevWake : Nat)
    (overrun : Bool) (s : FTState) :
    (vFT_Primary_cycle cfg entry prevWake overrun s).state.deadlineMisses =
      s.deadlineMisses +
        (if prevWake + cfg.deadline <
              (vFT_Primary_cycle cfg entry prevWake overrun s).completionTime
         then 1 else 0) := by
  unfold vFT_Primary_cycle
  dsimp only
  rw [Nat.add_sub_cancel]
  cases overrun <;> split_ifs <;> simp_all

/-- C3: at each backup check, if the primary succeeded the backup runs no
substitute workload and leaves the whole record untouched; otherwise it
runs the substitute workload and increments `backupActivations` by exactly
1; in either case `successCount` is never modified by the backup. -/
theorem C3_backup_activation (cfg : FTConfig) (s : FTState) :
    (s.primarySuccess = true →
      (vFT_Backup_cycle cfg s).activated = false ∧
      (vFT_Backup_cycle cfg s).substituteTime = 0 ∧
      (vFT_Backup_cycle cfg s).state = s) ∧
    (s.primarySuccess = false →
      (vFT_Backup_cycle cfg s).activated = true ∧
      (vFT_Backup_cycle cfg s).substituteTime = pdMS_TO_TICKS (cfg.period / 4) ∧
      (vFT_Backup_cycle cfg s).state.backupActivations =
        s.backupActivations + 1) ∧
    (vFT_Backup_cycle cfg s).state.successCount = s.successCount := by
  rcases s with ⟨ps, sc, ba, dm⟩
  cases ps <;> simp [vFT_Backup_cycle]

/-- Witness for C3 with JobA, one succeeded record and one failed record. -/
theorem C3_backup_activation_witness :
    (vFT_Backup_cycle jobA ⟨true, 4, 0, 0⟩).activated = false ∧
    (vFT_Backup_cycle jobA ⟨false, 4, 0, 0⟩).state.backupActivations = 1 ∧
    (vFT_Backup_cycle jobA ⟨false, 4, 0, 0⟩).state.successCount = 4 :=
  ⟨((C3_backup_activation jobA ⟨true, 4, 0, 0⟩).1 rfl).1,
   ((C3_backup_activation jobA ⟨false, 4, 0, 0⟩).2.1 rfl).2.2,
   (C3_backup_activation jobA ⟨false, 4, 0, 0⟩).2.2⟩

/-- C7 fails as stated: in a JobA cycle entered at time 0 with release at
500, the reset of `primarySuccess` to the failed-default is stamped at
time 0 — before the inter-release sleep, at the end of the preceding
period — not at the release at 500 as the claim requires. -/
theorem C7_counterexample :
    vFT_Primary_trace jobA 0 0 false =
      [(0, PrimEvent.outcomeReset), (500, PrimEvent.released),
       (750, PrimEvent.outcomeWrite true), (750, PrimEvent.successIncrement)] ∧
    (0 : Nat) ≠ 500 := by decide

/-- C7 amended: each primary cycle performs, in order: the reset of
`primarySuccess` to the failed-default at loop entry (before the
inter-release sleep, i.e. at the end of the preceding cycle), the period
release, then the workload; on nominal completion it writes SUCCEEDED and
increments `successCount` by exactly 1; on an overrun it rewrites the
failed-default and leaves `successCount` unchanged. -/
theorem C7_amended_cycle_order (cfg : FTConfig) (entry prevWake : Nat)
    (overrun : Bool) (s : FTState)
    (h : entry ≤ prevWake + cfg.period) :
    (vFT_Primary_trace cfg entry prevWake overrun).head? =
      some (entry, PrimEvent.outcomeReset) ∧
    (vFT_Primary_trace cfg entry prevWake overrun)[1]? =
      some (prevWake + cfg.period, PrimEvent.released) ∧
    (overrun = false →
      (vFT_Primary_trace cfg entry prevWake overrun)[2]? =
        some (prevWake + cfg.period + cfg.period / 2,
              PrimEvent.outcomeWrite true) ∧
      (vFT_Primary_trace cfg entry prevWake overrun)[3]? =
        some (prevWake + cfg.period + cfg.period / 2,
              PrimEvent.successIncrement) ∧
      (vFT_Primary_cycle cfg entry prevWake overrun s).state.primarySuccess =
        true ∧
      (vFT_Primary_cycle cfg entry prevWake overrun s).state.successCount =
        s.successCount + 1) ∧
    (overrun = true →
      (vFT_Primary_trace cfg entry prevWake overrun)[2]? =
        some (prevWake + cfg.period + cfg.deadline * 2 / 1,
              PrimEvent.outcomeWrite false) ∧
      (∀ t : Nat,
        (t, PrimEvent.successIncrement) ∉ vFT_Primary_trace cfg entry prevWake overrun) ∧
      (vFT_Primary_cycle cfg entry prevWake overrun s).state.primarySuccess =
        false ∧
      (vFT_Primary_cycle cfg entry prevWake overrun s).state.successCount =
        s.successCount) := by
  have hmax : max entry (prevWake + cfg.period) = prevWake + cfg.period :=
    max_eq_right h
  unfold vFT_Primary_trace vFT_Primary_cycle pdMS_TO_TICKS
  cases overrun <;> dsimp only <;> rw [hmax] <;> split_ifs <;> simp_all

/-- Witness for the amended C7: JobA cycle entered at 0 with previous wake
0, nominal execution. -/
theorem C7_amended_witness :
    (vFT_Primary_trace jobA 0 0 false).head? =
      some (0, PrimEvent.outcomeReset) ∧
    (vFT_Primary_trace jobA 0 0 false)[1]? =
      some (0 + jobA.period, PrimEvent.released) ∧
    (vFT_Primary_trace jobA 0 0 false)[2]? =
      some (0 + jobA.period + jobA.period / 2, PrimEvent.outcomeWrite true) :=
  ⟨(C7_amended_cycle_order jobA 0 0 false ⟨true, 0, 0, 0⟩ (by decide)).1,
   (C7_amended_cycle_order jobA 0 0 false ⟨true, 0, 0, 0⟩ (by decide)).2.1,
   ((C7_amended_cycle_order jobA 0 0 false ⟨true, 0, 0, 0⟩ (by decide)).2.2.1
      rfl).1⟩

/-- Helper: closed form of the idle-case JobA backup check times. -/
theorem jobACheckTime_closed (k : Nat) : jobACheckTime k = 800 * (k + 1) := by
  induction k with
  | zero => rfl
  | succ n ih =>
      have h : jobACheckTime (n + 1) = jobACheckTime n + 0 + 800 := rfl
      rw [h, ih]
      ring

/-- Helper: any idle-case backup check inside JobA primary period `n` has
index below the search bound `n + 2` used by `jobABackupChecksInPeriod`,
so the bounded count counts every check. -/
theorem jobACheckTime_lt_bound (k n : Nat)
    (h1 : jobAPeriodStart n ≤ jobACheckTime k)
    (h2 : jobACheckTime k < jobAPeriodStart (n + 1)) :
    k < n + 2 := by
  rw [jobACheckTime_closed] at h1 h2
  simp only [jobAPeriodStart, jobA] at h1 h2
  omega

/-- C6 fails as stated: with every primary run succeeding, JobA's backup
checks fall at 800, 1600, 2400, … while the primary's period instance 1
spans [1000, 1500); that period is read by zero backup checks, not exactly
one (instance 0, [500, 1000), is read once, by the check at 800). -/
theorem C6_counterexample :
    jobABackupChecksInPeriod 0 = 1 ∧
    jobABackupChecksInPeriod 1 = 0 ∧
    jobABackupChecksInPeriod 1 ≠ 1 := by decide

/-- C6 amended: each backup cycle performs exactly one read of
`primarySuccess`, and consecutive reads are separated by at least
`deadline_offset` (the offset plus the substitute-execution time of the
previous cycle); since the offset strictly exceeds the primary's period
for both configured jobs (800 > 500 and 1000 > 700), primary periods are
not each read exactly once — some receive no backup read at all. -/
theorem C6_amended_check_spacing (cfg : FTConfig) (acts : Nat → Bool)
    (k : Nat) :
    backupCheckTimes cfg acts (k + 1) - backupCheckTimes cfg acts k ≥
      cfg.deadline ∧
    jobA.deadline > jobA.period ∧ jobB.deadline > jobB.period := by
  refine ⟨?_, by decide, by decide⟩
  have h : backupCheckTimes cfg acts (k + 1) =
      backupCheckTimes cfg acts k +
        (if acts k then pdMS_TO_TICKS (cfg.period / 4) else 0) +
        pdMS_TO_TICKS cfg.deadline := rfl
  rw [h]
  unfold pdMS_TO_TICKS
  split <;> omega

/-- C4: for each worker, starting from miss counter 0 (the other worker's
counter arbitrary): two consecutive windows with that worker's bit absent
cause no restart in the first window, exactly one destroy-then-recreate in
the second (with the worker's own heartbeat bit), and leave the counter at
0; an absent window followed by a present bit causes no restart at all and
resets the counter to 0; and a window timeout with no notification
increments every worker's counter. -/
theorem C4_two_misses_restart (m : Nat) (i1 i2 : Option Nat) (s : SupState) :
    (bitAbsent worker1Bit i1 = true → bitAbsent worker1Bit i2 = true →
      (supervisorStep i1 ⟨0, m⟩).2.restarted1 = false ∧
      (supervisorStep i2 (supervisorStep i1 ⟨0, m⟩).1).2.restarted1 = true ∧
      worker1Bit ∈ (supervisorStep i2 (supervisorStep i1 ⟨0, m⟩).1).2.createdBits ∧
      (supervisorStep i2 (supervisorStep i1 ⟨0, m⟩).1).1.missed1 = 0) ∧
    (bitAbsent worker1Bit i1 = true → bitAbsent worker1Bit i2 = false →
      (supervisorStep i1 ⟨0, m⟩).2.restarted1 = false ∧
      (supervisorStep i2 (supervisorStep i1 ⟨0, m⟩).1).2.restarted1 = false ∧
      (supervisorStep i2 (supervisorStep i1 ⟨0, m⟩).1).1.missed1 = 0) ∧
    (bitAbsent worker2Bit i1 = true → bitAbsent worker2Bit i2 = true →
      (supervisorStep i1 ⟨m, 0⟩).2.restarted2 = false ∧
      (supervisorStep i2 (supervisorStep i1 ⟨m, 0⟩).1).2.restarted2 = true ∧
      worker2Bit ∈ (supervisorStep i2 (supervisorStep i1 ⟨m, 0⟩).1).2.createdBits ∧
      (supervisorStep i2 (supervisorStep i1 ⟨m, 0⟩).1).1.missed2 = 0) ∧
    (bitAbsent worker2Bit i1 = true → bitAbsent worker2Bit i2 = false →
      (supervisorStep i1 ⟨m, 0⟩).2.restarted2 = false ∧
      (supervisorStep i2 (supervisorStep i1 ⟨m, 0⟩).1).2.restarted2 = false ∧
      (supervisorStep i2 (supervisorStep i1 ⟨m, 0⟩).1).1.missed2 = 0) ∧
    (updateMiss none s = ⟨s.missed1 + 1, s.missed2 + 1⟩) := by
  refine ⟨?_, ?_, ?_, ?_, rfl⟩ <;> intro h1 h2 <;>
    cases i1 <;> cases i2 <;>
    simp_all [supervisorStep, updateMiss, restartPhase, bitAbsent,
      worker1Bit, worker2Bit]

/-- Witness for C4: worker1 misses a timed-out window and then a window
whose bitmask 2 lacks its bit, so the second window restarts it. -/
theorem C4_two_misses_restart_witness :
    (supervisorStep (some 2) (supervisorStep none ⟨0, 0⟩).1).2.restarted1 = true ∧
    (supervisorStep (some 2) (supervisorStep none ⟨0, 0⟩).1).1.missed1 = 0 ∧
    updateMiss none ⟨0, 0⟩ = ⟨1, 1⟩ :=
  ⟨((C4_two_misses_restart 0 none (some 2) ⟨0, 0⟩).1 (by decide) (by decide)).2.1,
   ((C4_two_misses_restart 0 none (some 2) ⟨0, 0⟩).1 (by decide) (by decide)).2.2.2,
   (C4_two_misses_restart 0 none (some 2) ⟨0, 0⟩).2.2.2.2⟩

/-- Helper: after any supervisor iteration both miss counters are at most
1 — a counter that reaches 2 is reset inside the same iteration. -/
theorem supervisorStep_missed_le (received : Option Nat) (s : SupState) :
    (supervisorStep received s).1.missed1 ≤ 1 ∧
    (supervisorStep received s).1.missed2 ≤ 1 := by
  cases received <;>
    simp only [supervisorStep, updateMiss, restartPhase] <;>
    split_ifs <;> simp_all

/-- Helper: the bits passed to the recreations of one iteration are
exactly the original heartbeat bit of each restarted worker. -/
theorem supervisorStep_createdBits (received : Option Nat) (s : SupState) :
    (supervisorStep received s).2.createdBits =
      (if (supervisorStep received s).2.restarted1 then [worker1Bit] else []) ++
      (if (supervisorStep received s).2.restarted2 then [worker2Bit] else []) := by
  cases received <;>
    simp only [supervisorStep, updateMiss, restartPhase] <;>
    split_ifs <;> simp_all

/-- Helper: over any run of collection windows, both miss counters stay at
most 1 at the end of every iteration, and every recorded iteration
recreates only restarted workers, each with its original bit. -/
theorem supervisorRun_invariant (inputs : List (Option Nat)) (s : SupState)
    (h1 : s.missed1 ≤ 1) (h2 : s.missed2 ≤ 1) :
    (supervisorRun inputs s).1.missed1 ≤ 1 ∧
    (supervisorRun inputs s).1.missed2 ≤ 1 ∧
    ∀ info ∈ (supervisorRun inputs s).2,
      info.createdBits =
        (if info.restarted1 then [worker1Bit] else []) ++
        (if info.restarted2 then [worker2Bit] else []) := by
  induction inputs generalizing s with
  | nil => exact ⟨h1, h2, by simp [supervisorRun]⟩
  | cons i rest ih =>
      have hs := supervisorStep_missed_le i s
      obtain ⟨ha, hb, hc⟩ := ih (supervisorStep i s).1 hs.1 hs.2
      refine ⟨ha, hb, ?_⟩
      intro info hinfo
      simp only [supervisorRun] at hinfo
      rcases List.mem_cons.mp hinfo with hcase | hcase
      · rw [hcase]
        exact supervisorStep_createdBits i s
      · exact hc info hcase

/-- C5: in every state reachable at the end of a supervisor
collection-window iteration from the initial counters (0, 0), each
worker's miss counter is 0 or 1 (a counter reaching 2 is reset in the same
iteration), and every recreated worker is created with the same heartbeat
bit its predecessor used: `1 <<< 0` for Worker1 and `1 <<< 1` for
Worker2. -/
theorem C5_reachable_counters_and_bits (inputs : List (Option Nat)) :
    ((supervisorRun inputs ⟨0, 0⟩).1.missed1 = 0 ∨
     (supervisorRun inputs ⟨0, 0⟩).1.missed1 = 1) ∧
    ((supervisorRun inputs ⟨0, 0⟩).1.missed2 = 0 ∨
     (supervisorRun inputs ⟨0, 0⟩).1.missed2 = 1) ∧
    ∀ info ∈ (supervisorRun inputs ⟨0, 0⟩).2,
      info.createdBits =
        (if info.restarted1 then [worker1Bit] else []) ++
        (if info.restarted2 then [worker2Bit] else []) := by
  obtain ⟨h1, h2, h3⟩ := supervisorRun_invariant inputs ⟨0, 0⟩ (by decide) (by decide)
  exact ⟨by omega, by omega, h3⟩

/-- Witness for C5 on the run [timeout, timeout]: the final counters are 0
and the second iteration restarts both workers with their original bits. -/
theorem C5_reachable_witness :
    ((supervisorRun [none, none] ⟨0, 0⟩).1.missed1 = 0 ∨
     (supervisorRun [none, none] ⟨0, 0⟩).1.missed1 = 1) ∧
    RestartInfo.createdBits ⟨true, true, [worker1Bit, worker2Bit]⟩ =
      [worker1Bit, worker2Bit] := by
  have h := C5_reachable_counters_and_bits [none, none]
  refine ⟨h.1, ?_⟩
  have hm := h.2.2 ⟨true, true, [worker1Bit, worker2Bit]⟩ (by decide)
  simp only [if_pos rfl] at hm
  exact hm

end RTOS
